import Mathlib

/-!
Shallow embedding of `src/post_montecarlo/montecarlo_python_marketing.py`
(the Monte Carlo marketing simulator and portfolio optimizer).

Modelling conventions:
* Python floats are modelled as exact rationals (`ℚ`); the only genuinely
  irrational operation in the program, the square root inside the pandas
  sample standard deviation, lands in `ℝ`.
* `np.random.normal(mu, sigma)` is modelled as `mu + sigma * z`, where `z`
  is an arbitrary standard-normal draw supplied by an explicit oracle
  argument; quantifying over the oracle quantifies over every possible
  random outcome.
* Python `int(x)` truncates toward zero; `pyInt` mirrors that.
* A Python exception is modelled by an `Option` result: `none` is the raised
  error (in `simular_canal` the `IndexError`, a subclass of `LookupError`,
  raised by `.iloc[0]` on an empty selection).
-/

set_option autoImplicit false
set_option maxRecDepth 8000

namespace Montecarlo

/-- One row of the channel-parameter table built by
`criar_parametros_canais` (source lines 13-32). -/
structure CanalParams where
  canal : String
  cpc_medio : ℚ
  cpc_desvio : ℚ
  ctr_medio : ℚ
  ctr_desvio : ℚ
  conversao_media : ℚ
  conversao_desvio : ℚ
  ticket_medio : ℚ
  ticket_desvio : ℚ
deriving DecidableEq, Repr

/-- The fixed five-channel table of `criar_parametros_canais`
(source lines 20-30), one record per column position. -/
def criar_parametros_canais : List CanalParams :=
  [ { canal := "Google Ads", cpc_medio := 2.5, cpc_desvio := 0.5,
      ctr_medio := 0.035, ctr_desvio := 0.008,
      conversao_media := 0.03, conversao_desvio := 0.008,
      ticket_medio := 150, ticket_desvio := 30 },
    { canal := "Facebook Ads", cpc_medio := 1.8, cpc_desvio := 0.4,
      ctr_medio := 0.025, ctr_desvio := 0.006,
      conversao_media := 0.025, conversao_desvio := 0.007,
      ticket_medio := 120, ticket_desvio := 25 },
    { canal := "Instagram Ads", cpc_medio := 1.5, cpc_desvio := 0.3,
      ctr_medio := 0.022, ctr_desvio := 0.005,
      conversao_media := 0.02, conversao_desvio := 0.005,
      ticket_medio := 100, ticket_desvio := 20 },
    { canal := "Email Marketing", cpc_medio := 0.05, cpc_desvio := 0.01,
      ctr_medio := 0.15, ctr_desvio := 0.03,
      conversao_media := 0.05, conversao_desvio := 0.015,
      ticket_medio := 200, ticket_desvio := 50 },
    { canal := "LinkedIn Ads", cpc_medio := 5.0, cpc_desvio := 1.0,
      ctr_medio := 0.028, ctr_desvio := 0.007,
      conversao_media := 0.04, conversao_desvio := 0.01,
      ticket_medio := 300, ticket_desvio := 80 } ]

/-- The four standard-normal draws one loop iteration of `simular_canal`
consumes (source lines 66-69), supplied by the random oracle. -/
structure ZDraw where
  z_cpc : ℚ
  z_ctr : ℚ
  z_conversao : ℚ
  z_ticket : ℚ
deriving DecidableEq, Repr

/-- `np.random.normal mu sigma` modelled as `mu + sigma * z` for the
oracle-supplied standard draw `z`. -/
def normalSample (mu sigma z : ℚ) : ℚ := mu + sigma * z

/-- `np.clip x lo hi = min hi (max lo x)` (with `lo ≤ hi` at every call
site of the source). -/
def clip (x lo hi : ℚ) : ℚ := min hi (max lo x)

/-- Python `int` applied to a float: truncation toward zero. -/
def pyInt (q : ℚ) : ℤ := if 0 ≤ q then ⌊q⌋ else ⌈q⌉

/-- One simulation draw of `simular_canal`: the per-iteration entries of
the `resultados` arrays (source lines 51-62 and 80-88) plus the `canal`
column added at line 91.  The intermediate `impressoes` (line 73) is
computed but never stored, so it is not a field; see `impressoesOf`. -/
structure Draw where
  simulacao : ℕ
  cpc : ℚ
  ctr : ℚ
  taxa_conversao : ℚ
  ticket_medio : ℚ
  cliques : ℤ
  conversoes : ℤ
  receita : ℚ
  roi : ℚ
  lucro : ℚ
  canal : String
deriving DecidableEq, Repr

/-- The body of one iteration of the simulation loop of `simular_canal`
(source lines 64-88): clamped sampling of the four drivers and the derived
metrics. -/
def simularDraw (canal : CanalParams) (budget : ℚ) (nome : String) (i : ℕ)
    (z : ZDraw) : Draw :=
  let cpc := max 0.01 (normalSample canal.cpc_medio canal.cpc_desvio z.z_cpc)
  let ctr := clip (normalSample canal.ctr_medio canal.ctr_desvio z.z_ctr) 0.001 1
  let conversao :=
    clip (normalSample canal.conversao_media canal.conversao_desvio z.z_conversao) 0.001 1
  let ticket := max 10 (normalSample canal.ticket_medio canal.ticket_desvio z.z_ticket)
  let cliques := pyInt (budget / cpc)
  let conversoes := pyInt ((cliques : ℚ) * conversao)
  let receita := (conversoes : ℚ) * ticket
  let lucro := receita - budget
  let roi := if 0 < budget then (lucro / budget) * 100 else 0
  { simulacao := i, cpc := cpc, ctr := ctr, taxa_conversao := conversao,
    ticket_medio := ticket, cliques := cliques, conversoes := conversoes,
    receita := receita, roi := roi, lucro := lucro, canal := nome }

/-- The `impressoes` computation of source line 73 (`int(cliques / ctr)`),
computed from a draw's stored fields; the source derives it and drops it. -/
def impressoesOf (d : Draw) : ℤ := pyInt ((d.cliques : ℚ) / d.ctr)

/-- `simular_canal` (source lines 34-93).  The row lookup
`parametros[parametros['canal'] == nome_canal].iloc[0]` takes the first row
whose `canal` column equals `nome_canal` and raises `IndexError` (a
`LookupError`) when there is none; this is the `Option.map` over `find?`.
On success the loop produces one `Draw` per `i < n_simulacoes`, feeding the
four normal samples of iteration `i` from the oracle `zs i`. -/
def simular_canal (nome_canal : String) (budget : ℚ)
    (parametros : List CanalParams) (n_simulacoes : ℕ) (zs : ℕ → ZDraw) :
    Option (List Draw) :=
  (parametros.find? (fun p => p.canal == nome_canal)).map (fun canal =>
    (List.range n_simulacoes).map (fun i => simularDraw canal budget nome_canal i (zs i)))

/-- Constant-zero random oracle: every normal sample comes out at its mean. -/
def zZero : ℕ → ZDraw := fun _ => ⟨0, 0, 0, 0⟩

/-! ## Portfolio optimizer (`otimizar_portfolio`, source lines 156-203)

The optimizer draws 1000 Dirichlet allocation vectors (`n_portfolios =
1000`, line 164) - here the matrix `alocacoes` is an explicit oracle
`aloc : ℕ → ℕ → ℚ` (trial index, channel index) - and for every trial
and every channel with strictly positive allocated budget re-runs
`simular_canal` with the HARDCODED draw count 1000 (line 178; the
function's own `n_simulacoes` parameter, default 5000, is never used in
the body).  Per channel it accumulates mean roi weighted by the
allocation, mean profit unweighted, and the pandas sample standard
deviation of profit weighted by the allocation (lines 184-186). -/

/-- pandas `Series.mean`: sum divided by length. -/
def mean (l : List ℚ) : ℚ := l.sum / (l.length : ℚ)

/-- The variance part of pandas `Series.std` (`ddof = 1`): sum of squared
deviations from the mean over `length - 1`.  Every call in the source has
`length = 1000`, so the degenerate `length ≤ 1` cases never arise. -/
def sampleVar (l : List ℚ) : ℚ :=
  (l.map (fun x => (x - mean l) ^ 2)).sum / ((l.length : ℚ) - 1)

/-- pandas `Series.std` with its default `ddof = 1`: the square root of
`sampleVar`, the one irrational step of the program. -/
noncomputable def sampleStd (l : List ℚ) : ℝ := Real.sqrt ((sampleVar l : ℚ) : ℝ)

/-- One row of `resultados_portfolio` (source lines 188-195). -/
structure Portfolio where
  portfolio : ℕ
  roi_esperado : ℚ
  lucro_esperado : ℚ
  risco : ℝ
  sharpe_ratio : ℝ
  alocacao : List ℚ

/-- The accumulator step for one channel inside a portfolio trial (source
lines 175-186): state is `(roi_total, lucro_total, risco_total)`, the
channel is the `enumerate` pair `(j, row)`.  The `none` branch of the
inner lookup is unreachable (the simulated name comes from the table
itself) and accumulates nothing. -/
noncomputable def passo (budget_total : ℚ) (parametros : List CanalParams)
    (aloc : ℕ → ℕ → ℚ) (zs : ℕ → ℕ → ℕ → ZDraw) (i : ℕ)
    (s : ℚ × ℚ × ℝ) (jp : ℕ × CanalParams) : ℚ × ℚ × ℝ :=
  let budget_canal := budget_total * aloc i jp.1
  if 0 < budget_canal then
    match simular_canal jp.2.canal budget_canal parametros 1000 (zs i jp.1) with
    | some sim =>
        (s.1 + mean (sim.map (fun d => d.roi)) * aloc i jp.1,
         s.2.1 + mean (sim.map (fun d => d.lucro)),
         s.2.2 + sampleStd (sim.map (fun d => d.lucro)) * ((aloc i jp.1 : ℚ) : ℝ))
    | none => s
  else s

/-- The roi contribution of channel `jp` to trial `i` (0 when the channel
gets no positive budget or the unreachable lookup failure occurs). -/
noncomputable def contribRoi (budget_total : ℚ) (parametros : List CanalParams)
    (aloc : ℕ → ℕ → ℚ) (zs : ℕ → ℕ → ℕ → ZDraw) (i : ℕ)
    (jp : ℕ × CanalParams) : ℚ :=
  if 0 < budget_total * aloc i jp.1 then
    match simular_canal jp.2.canal (budget_total * aloc i jp.1) parametros 1000 (zs i jp.1) with
    | some sim => mean (sim.map (fun d => d.roi)) * aloc i jp.1
    | none => 0
  else 0

/-- The (unweighted) profit contribution of channel `jp` to trial `i`. -/
noncomputable def contribLucro (budget_total : ℚ) (parametros : List CanalParams)
    (aloc : ℕ → ℕ → ℚ) (zs : ℕ → ℕ → ℕ → ZDraw) (i : ℕ)
    (jp : ℕ × CanalParams) : ℚ :=
  if 0 < budget_total * aloc i jp.1 then
    match simular_canal jp.2.canal (budget_total * aloc i jp.1) parametros 1000 (zs i jp.1) with
    | some sim => mean (sim.map (fun d => d.lucro))
    | none => 0
  else 0

/-- The weighted risk contribution of channel `jp` to trial `i`. -/
noncomputable def contribRisco (budget_total : ℚ) (parametros : List CanalParams)
    (aloc : ℕ → ℕ → ℚ) (zs : ℕ → ℕ → ℕ → ZDraw) (i : ℕ)
    (jp : ℕ × CanalParams) : ℝ :=
  if 0 < budget_total * aloc i jp.1 then
    match simular_canal jp.2.canal (budget_total * aloc i jp.1) parametros 1000 (zs i jp.1) with
    | some sim => sampleStd (sim.map (fun d => d.lucro)) * ((aloc i jp.1 : ℚ) : ℝ)
    | none => 0
  else 0

/-- One portfolio trial (the body of the outer loop, source lines
169-195): fold the channel accumulator over the enumerated table and
record the candidate, with `sharpe_ratio = lucro_total / risco_total` when
`risco_total > 0` and `0` otherwise (line 193). -/
noncomputable def avaliar_portfolio (budget_total : ℚ)
    (parametros : List CanalParams) (aloc : ℕ → ℕ → ℚ)
    (zs : ℕ → ℕ → ℕ → ZDraw) (i : ℕ) : Portfolio :=
  { portfolio := i
    roi_esperado :=
      (parametros.enum.foldl (passo budget_total parametros aloc zs i) (0, 0, 0)).1
    lucro_esperado :=
      (parametros.enum.foldl (passo budget_total parametros aloc zs i) (0, 0, 0)).2.1
    risco :=
      (parametros.enum.foldl (passo budget_total parametros aloc zs i) (0, 0, 0)).2.2
    sharpe_ratio :=
      if 0 < (parametros.enum.foldl (passo budget_total parametros aloc zs i) (0, 0, 0)).2.2
      then (((parametros.enum.foldl (passo budget_total parametros aloc zs i) (0, 0, 0)).2.1 : ℚ) : ℝ) /
        (parametros.enum.foldl (passo budget_total parametros aloc zs i) (0, 0, 0)).2.2
      else 0
    alocacao := (List.range parametros.length).map (aloc i) }

/-- pandas `Series.idxmax` helper: scan with the current best value and
best position, updating only on a strictly larger value. -/
def idxmaxAux {α β : Type} [LinearOrder β] (f : α → β) :
    List α → ℕ → β → ℕ → ℕ
  | [], _, _, bi => bi
  | x :: xs, i, bv, bi =>
      if bv < f x then idxmaxAux f xs (i + 1) (f x) i
      else idxmaxAux f xs (i + 1) bv bi

/-- pandas `Series.idxmax`: position of the first occurrence of the
maximum (pandas raises on an empty series; the source always applies it to
1000 rows, so the `[]` case is unreachable). -/
def idxmax {α β : Type} [LinearOrder β] (f : α → β) : List α → ℕ
  | [] => 0
  | x :: xs => idxmaxAux f xs 1 (f x) 0

/-- The default row used by `List.getD` below; never selected, since
`idxmax` of a nonempty list is in bounds. -/
noncomputable def dfltPortfolio : Portfolio :=
  { portfolio := 0, roi_esperado := 0, lucro_esperado := 0,
    risco := 0, sharpe_ratio := 0, alocacao := [] }

/-- The triple returned by `otimizar_portfolio` (source line 203). -/
structure OtimResult where
  df_portfolios : List Portfolio
  melhor_roi : Portfolio
  melhor_sharpe : Portfolio

/-- `otimizar_portfolio` (source lines 156-203).  `n_simulacoes` is the
function's draw-count parameter (default 5000 at the Python call sites);
the body never reads it - the inner `simular_canal` call hardcodes 1000
draws (line 178) and `n_portfolios` is hardcoded to 1000 (line 164).
`melhor_roi` and `melhor_sharpe` are the rows selected by `idxmax` on
`roi_esperado` and `sharpe_ratio` (lines 200-201). -/
noncomputable def otimizar_portfolio (budget_total : ℚ)
    (parametros : List CanalParams) (n_simulacoes : ℕ)
    (aloc : ℕ → ℕ → ℚ) (zs : ℕ → ℕ → ℕ → ZDraw) : OtimResult :=
  { df_portfolios :=
      (List.range 1000).map (avaliar_portfolio budget_total parametros aloc zs)
    melhor_roi :=
      ((List.range 1000).map (avaliar_portfolio budget_total parametros aloc zs)).getD
        (idxmax (fun c => c.roi_esperado)
          ((List.range 1000).map (avaliar_portfolio budget_total parametros aloc zs)))
        dfltPortfolio
    melhor_sharpe :=
      ((List.range 1000).map (avaliar_portfolio budget_total parametros aloc zs)).getD
        (idxmax (fun c => c.sharpe_ratio)
          ((List.range 1000).map (avaliar_portfolio budget_total parametros aloc zs)))
        dfltPortfolio }

/-- The number of Monte Carlo draws the nested loops of
`otimizar_portfolio` simulate: for each of the 1000 trials and each
channel with positive allocated budget, the length of the draw list the
inner `simular_canal` call (source line 178) produces. -/
def total_draws_simulated (budget_total : ℚ) (parametros : List CanalParams)
    (aloc : ℕ → ℕ → ℚ) (zs : ℕ → ℕ → ℕ → ZDraw) : ℕ :=
  ((List.range 1000).map (fun i =>
    (parametros.enum.map (fun jp =>
      if 0 < budget_total * aloc i jp.1 then
        match simular_canal jp.2.canal (budget_total * aloc i jp.1) parametros 1000 (zs i jp.1) with
        | some sim => sim.length
        | none => 0
      else 0)).sum)).sum

/-- Unpacks membership in a `simular_canal` result: every produced draw is
`simularDraw` of the first matching parameter row at some iteration index
below `n_simulacoes`. -/
theorem mem_simular_canal {nome : String} {budget : ℚ}
    {parametros : List CanalParams} {n : ℕ} {zs : ℕ → ZDraw}
    {ds : List Draw} {d : Draw}
    (hds : simular_canal nome budget parametros n zs = some ds)
    (hd : d ∈ ds) :
    ∃ canal, parametros.find? (fun p => p.canal == nome) = some canal ∧
      ∃ i, i < n ∧ d = simularDraw canal budget nome i (zs i) := by
  unfold simular_canal at hds
  cases hfind : parametros.find? (fun p => p.canal == nome) with
  | none => rw [hfind] at hds; simp at hds
  | some canal =>
      refine ⟨canal, rfl, ?_⟩
      rw [hfind] at hds
      simp only [Option.map_some', Option.some.injEq] at hds
      subst hds
      rcases List.mem_map.mp hd with ⟨i, hi, hdi⟩
      exact ⟨i, List.mem_range.mp hi, hdi.symm⟩

/-- C1: every draw produced by `simular_canal` with budget `b` satisfies
`receita = conversoes * ticket`, `lucro = receita - b`, and
`roi = 100 * lucro / b` when `0 < b` while `roi = 0` when `b = 0`
(source lines 75-77). -/
theorem derivation_consistency (nome : String) (b : ℚ)
    (parametros : List CanalParams) (n : ℕ) (zs : ℕ → ZDraw)
    (ds : List Draw) (d : Draw)
    (hds : simular_canal nome b parametros n zs = some ds) (hd : d ∈ ds) :
    d.receita = (d.conversoes : ℚ) * d.ticket_medio ∧
    d.lucro = d.receita - b ∧
    (0 < b → d.roi = 100 * d.lucro / b) ∧
    (b = 0 → d.roi = 0) := by
  obtain ⟨canal, -, i, -, hdi⟩ := mem_simular_canal hds hd
  subst hdi
  refine ⟨rfl, rfl, fun hb => ?_, fun hb => ?_⟩
  · simp only [simularDraw]
    rw [if_pos hb]
    ring
  · simp only [simularDraw]
    subst hb
    rw [if_neg (lt_irrefl 0)]

/-- Witness for C1 at a concrete input: budget 100 on Google Ads with the
all-zero random oracle gives the draw with receita 150, lucro 50, roi 50. -/
theorem derivation_consistency_witness :
    ∃ ds, simular_canal "Google Ads" 100 criar_parametros_canais 1 zZero = some ds ∧
      ∃ d, d ∈ ds ∧
        d.receita = (d.conversoes : ℚ) * d.ticket_medio ∧
        d.lucro = d.receita - 100 ∧
        (0 < (100 : ℚ) → d.roi = 100 * d.lucro / 100) ∧
        ((100 : ℚ) = 0 → d.roi = 0) := by
  have hds : simular_canal "Google Ads" 100 criar_parametros_canais 1 zZero =
      some [{ simulacao := 0, cpc := 2.5, ctr := 0.035, taxa_conversao := 0.03,
              ticket_medio := 150, cliques := 40, conversoes := 1,
              receita := 150, roi := 50, lucro := 50, canal := "Google Ads" }] := by
    with_unfolding_all decide
  refine ⟨_, hds, _, List.mem_singleton_self _, ?_⟩
  exact derivation_consistency "Google Ads" 100 criar_parametros_canais 1 zZero _ _
    hds (List.mem_singleton_self _)

/-- C2: every draw of `simular_canal` has its sampled drivers clamped:
`cpc ≥ 0.01`, `0.001 ≤ ctr ≤ 1`, `0.001 ≤ taxa_conversao ≤ 1`,
`ticket ≥ 10`, whatever the raw normal samples were (source lines 66-69). -/
theorem clamping_invariant (nome : String) (b : ℚ)
    (parametros : List CanalParams) (n : ℕ) (zs : ℕ → ZDraw)
    (ds : List Draw) (d : Draw)
    (hds : simular_canal nome b parametros n zs = some ds) (hd : d ∈ ds) :
    (0.01 : ℚ) ≤ d.cpc ∧
    (0.001 : ℚ) ≤ d.ctr ∧ d.ctr ≤ 1 ∧
    (0.001 : ℚ) ≤ d.taxa_conversao ∧ d.taxa_conversao ≤ 1 ∧
    (10 : ℚ) ≤ d.ticket_medio := by
  obtain ⟨canal, -, i, -, hdi⟩ := mem_simular_canal hds hd
  subst hdi
  refine ⟨le_max_left _ _, ?_, ?_, ?_, ?_, le_max_left _ _⟩
  · exact le_min (by norm_num) (le_max_left _ _)
  · exact min_le_left _ _
  · exact le_min (by norm_num) (le_max_left _ _)
  · exact min_le_left _ _

set_option maxRecDepth 8000 in
/-- Witness for C2 at an extreme input: a raw z-score of -1000 on every
driver still yields clamped values (cpc hits its floor 0.01). -/
theorem clamping_invariant_witness :
    ∃ ds, simular_canal "Google Ads" 1 criar_parametros_canais 1
        (fun _ => ⟨-1000, -1000, -1000, -1000⟩) = some ds ∧
      ∃ d, d ∈ ds ∧ (0.01 : ℚ) ≤ d.cpc ∧ (0.001 : ℚ) ≤ d.ctr ∧ d.ctr ≤ 1 ∧
        (0.001 : ℚ) ≤ d.taxa_conversao ∧ d.taxa_conversao ≤ 1 ∧
        (10 : ℚ) ≤ d.ticket_medio := by
  have hds : simular_canal "Google Ads" 1 criar_parametros_canais 1
      (fun _ => ⟨-1000, -1000, -1000, -1000⟩) =
      some [{ simulacao := 0, cpc := 0.01, ctr := 0.001, taxa_conversao := 0.001,
              ticket_medio := 10, cliques := 100, conversoes := 0,
              receita := 0, roi := -100, lucro := -1, canal := "Google Ads" }] := by
    with_unfolding_all decide
  refine ⟨_, hds, _, List.mem_singleton_self _, ?_⟩
  exact clamping_invariant "Google Ads" 1 criar_parametros_canais 1 _ _ _
    hds (List.mem_singleton_self _)

/-- C9: for a channel present in the table, a budget `b ≥ 0` and a draw
count `n ≥ 1`, `simular_canal` returns exactly `n` draws
(source lines 52-93). -/
theorem draw_count_invariant (nome : String) (b : ℚ)
    (parametros : List CanalParams) (n : ℕ) (zs : ℕ → ZDraw)
    (canal : CanalParams)
    (hfind : parametros.find? (fun p => p.canal == nome) = some canal)
    (_hb : 0 ≤ b) (_hn : 1 ≤ n) :
    ∃ ds, simular_canal nome b parametros n zs = some ds ∧ ds.length = n := by
  refine ⟨_, by rw [simular_canal, hfind]; rfl, ?_⟩
  simp

/-- Witness for C9: Google Ads at budget 100 with 3 requested draws
returns a 3-element result. -/
theorem draw_count_invariant_witness :
    ∃ ds, simular_canal "Google Ads" 100 criar_parametros_canais 3 zZero = some ds ∧
      ds.length = 3 := by
  exact draw_count_invariant "Google Ads" 100 criar_parametros_canais 3 zZero
    ⟨"Google Ads", 2.5, 0.5, 0.035, 0.008, 0.03, 0.008, 150, 30⟩
    (by with_unfolding_all decide) (by norm_num) (by norm_num)

/-- C10: in every draw the two divisors of the per-draw integer
divisions - `cpc` in `cliques = int(budget / cpc)` (source line 72) and
`ctr` in `impressoes = int(cliques / ctr)` (source line 73) - are nonzero
(indeed positive), so neither division divides by zero. -/
theorem division_safety (nome : String) (b : ℚ)
    (parametros : List CanalParams) (n : ℕ) (zs : ℕ → ZDraw)
    (ds : List Draw) (d : Draw)
    (hds : simular_canal nome b parametros n zs = some ds) (hd : d ∈ ds) :
    (0 < d.cpc ∧ d.cpc ≠ 0 ∧ d.cliques = pyInt (b / d.cpc)) ∧
    (0 < d.ctr ∧ d.ctr ≠ 0 ∧ impressoesOf d = pyInt ((d.cliques : ℚ) / d.ctr)) := by
  obtain ⟨canal, -, i, -, hdi⟩ := mem_simular_canal hds hd
  have hcpc : (0 : ℚ) < d.cpc := by
    subst hdi
    exact lt_of_lt_of_le (by norm_num) (le_max_left _ _)
  have hctr : (0 : ℚ) < d.ctr := by
    subst hdi
    exact lt_of_lt_of_le (by norm_num) (le_min (by norm_num) (le_max_left _ _))
  refine ⟨⟨hcpc, ne_of_gt hcpc, ?_⟩, hctr, ne_of_gt hctr, rfl⟩
  subst hdi
  rfl

/-- Witness for C10 at a concrete input (the divisors evaluate to 2.5 and
0.035, both nonzero). -/
theorem division_safety_witness :
    ∃ ds, simular_canal "Google Ads" 100 criar_parametros_canais 1 zZero = some ds ∧
      ∃ d, d ∈ ds ∧
        (0 < d.cpc ∧ d.cpc ≠ 0 ∧ d.cliques = pyInt (100 / d.cpc)) ∧
        (0 < d.ctr ∧ d.ctr ≠ 0 ∧ impressoesOf d = pyInt ((d.cliques : ℚ) / d.ctr)) := by
  have hds : simular_canal "Google Ads" 100 criar_parametros_canais 1 zZero =
      some [{ simulacao := 0, cpc := 2.5, ctr := 0.035, taxa_conversao := 0.03,
              ticket_medio := 150, cliques := 40, conversoes := 1,
              receita := 150, roi := 50, lucro := 50, canal := "Google Ads" }] := by
    with_unfolding_all decide
  refine ⟨_, hds, _, List.mem_singleton_self _, ?_⟩
  exact division_safety "Google Ads" 100 criar_parametros_canais 1 zZero _ _
    hds (List.mem_singleton_self _)

/-- C7: a channel name absent from the parameter table makes
`simular_canal` fail immediately (the `IndexError`, a `LookupError`, of
`.iloc[0]` on line 48, modelled by the `none` result), for every budget,
draw count and random outcome. -/
theorem missing_channel_fails (nome : String) (parametros : List CanalParams)
    (hfind : parametros.find? (fun p => p.canal == nome) = none) :
    ∀ (b : ℚ) (n : ℕ) (zs : ℕ → ZDraw),
      simular_canal nome b parametros n zs = none := by
  intro b n zs
  rw [simular_canal, hfind]
  rfl

/-- Witness for C7: the channel "TikTok Ads" is not in the table, and the
call fails for a sample budget and draw count. -/
theorem missing_channel_fails_witness :
    simular_canal "TikTok Ads" 100 criar_parametros_canais 10 zZero = none := by
  exact missing_channel_fails "TikTok Ads" criar_parametros_canais
    (by with_unfolding_all decide) 100 10 zZero

/-- C4 counterexample: a call with a negative budget is NOT rejected -
`simular_canal` performs no budget validation, and with budget -100 it
runs the sampling loop and returns a draw (with `cliques = -40`, truncation
toward zero of -100/2.5, and `roi = 0` from the `budget > 0` test). -/
theorem negative_budget_not_rejected :
    simular_canal "Google Ads" (-100) criar_parametros_canais 1 zZero =
      some [{ simulacao := 0, cpc := 2.5, ctr := 0.035, taxa_conversao := 0.03,
              ticket_medio := 150, cliques := -40, conversoes := -1,
              receita := -150, roi := 0, lucro := -50, canal := "Google Ads" }] := by
  with_unfolding_all decide

/-- C4 amended: `simular_canal` has no budget validation; a call with a
negative budget on a valid channel completes normally, returning exactly
`n` draws, each with `roi = 0` (because the `budget > 0` branch of source
line 77 is not taken). -/
theorem negative_budget_completes (nome : String) (b : ℚ)
    (parametros : List CanalParams) (n : ℕ) (zs : ℕ → ZDraw)
    (canal : CanalParams)
    (hfind : parametros.find? (fun p => p.canal == nome) = some canal)
    (hb : b < 0) :
    ∃ ds, simular_canal nome b parametros n zs = some ds ∧
      ds.length = n ∧ ∀ d ∈ ds, d.roi = 0 := by
  refine ⟨_, by rw [simular_canal, hfind]; rfl, by simp, ?_⟩
  intro d hd
  rcases List.mem_map.mp hd with ⟨i, -, hdi⟩
  subst hdi
  simp only [simularDraw]
  rw [if_neg (lt_asymm hb)]

/-- Witness for the amended C4: budget -100 on Google Ads completes with
one draw whose roi is 0. -/
theorem negative_budget_completes_witness :
    ∃ ds, simular_canal "Google Ads" (-100) criar_parametros_canais 1 zZero = some ds ∧
      ds.length = 1 ∧ ∀ d ∈ ds, d.roi = 0 := by
  exact negative_budget_completes "Google Ads" (-100) criar_parametros_canais 1 zZero
    ⟨"Google Ads", 2.5, 0.5, 0.035, 0.008, 0.03, 0.008, 150, 30⟩
    (by with_unfolding_all decide) (by norm_num)

/-! ## Structural lemmas about the optimizer -/

@[simp] lemma avaliar_portfolio_portfolio (bt : ℚ) (params : List CanalParams)
    (aloc : ℕ → ℕ → ℚ) (zs : ℕ → ℕ → ℕ → ZDraw) (i : ℕ) :
    (avaliar_portfolio bt params aloc zs i).portfolio = i := rfl

@[simp] lemma avaliar_portfolio_roi (bt : ℚ) (params : List CanalParams)
    (aloc : ℕ → ℕ → ℚ) (zs : ℕ → ℕ → ℕ → ZDraw) (i : ℕ) :
    (avaliar_portfolio bt params aloc zs i).roi_esperado =
      (params.enum.foldl (passo bt params aloc zs i) (0, 0, 0)).1 := rfl

@[simp] lemma avaliar_portfolio_lucro (bt : ℚ) (params : List CanalParams)
    (aloc : ℕ → ℕ → ℚ) (zs : ℕ → ℕ → ℕ → ZDraw) (i : ℕ) :
    (avaliar_portfolio bt params aloc zs i).lucro_esperado =
      (params.enum.foldl (passo bt params aloc zs i) (0, 0, 0)).2.1 := rfl

@[simp] lemma avaliar_portfolio_risco (bt : ℚ) (params : List CanalParams)
    (aloc : ℕ → ℕ → ℚ) (zs : ℕ → ℕ → ℕ → ZDraw) (i : ℕ) :
    (avaliar_portfolio bt params aloc zs i).risco =
      (params.enum.foldl (passo bt params aloc zs i) (0, 0, 0)).2.2 := rfl

lemma avaliar_portfolio_sharpe (bt : ℚ) (params : List CanalParams)
    (aloc : ℕ → ℕ → ℚ) (zs : ℕ → ℕ → ℕ → ZDraw) (i : ℕ) :
    (avaliar_portfolio bt params aloc zs i).sharpe_ratio =
      (if 0 < (params.enum.foldl (passo bt params aloc zs i) (0, 0, 0)).2.2 then
        (((params.enum.foldl (passo bt params aloc zs i) (0, 0, 0)).2.1 : ℚ) : ℝ) /
          (params.enum.foldl (passo bt params aloc zs i) (0, 0, 0)).2.2
      else 0) := rfl

@[simp] lemma otimizar_portfolio_df (bt : ℚ) (params : List CanalParams)
    (ns : ℕ) (aloc : ℕ → ℕ → ℚ) (zs : ℕ → ℕ → ℕ → ZDraw) :
    (otimizar_portfolio bt params ns aloc zs).df_portfolios =
      (List.range 1000).map (avaliar_portfolio bt params aloc zs) := rfl

lemma otimizar_portfolio_melhor_roi (bt : ℚ) (params : List CanalParams)
    (ns : ℕ) (aloc : ℕ → ℕ → ℚ) (zs : ℕ → ℕ → ℕ → ZDraw) :
    (otimizar_portfolio bt params ns aloc zs).melhor_roi =
      (otimizar_portfolio bt params ns aloc zs).df_portfolios.getD
        (idxmax (fun c => c.roi_esperado)
          (otimizar_portfolio bt params ns aloc zs).df_portfolios) dfltPortfolio := rfl

lemma otimizar_portfolio_melhor_sharpe (bt : ℚ) (params : List CanalParams)
    (ns : ℕ) (aloc : ℕ → ℕ → ℚ) (zs : ℕ → ℕ → ℕ → ZDraw) :
    (otimizar_portfolio bt params ns aloc zs).melhor_sharpe =
      (otimizar_portfolio bt params ns aloc zs).df_portfolios.getD
        (idxmax (fun c => c.sharpe_ratio)
          (otimizar_portfolio bt params ns aloc zs).df_portfolios) dfltPortfolio := rfl

/-- Every row of `df_portfolios` is `avaliar_portfolio` at some trial
index below 1000. -/
lemma mem_df_portfolios {bt : ℚ} {params : List CanalParams} {ns : ℕ}
    {aloc : ℕ → ℕ → ℚ} {zs : ℕ → ℕ → ℕ → ZDraw} {c : Portfolio}
    (hc : c ∈ (otimizar_portfolio bt params ns aloc zs).df_portfolios) :
    ∃ i, i < 1000 ∧ c = avaliar_portfolio bt params aloc zs i := by
  rw [otimizar_portfolio_df] at hc
  rcases List.mem_map.mp hc with ⟨i, hi, rfl⟩
  exact ⟨i, List.mem_range.mp hi, rfl⟩

/-- One step of the channel accumulator adds exactly the three per-channel
contributions. -/
lemma passo_eq_contribs (bt : ℚ) (params : List CanalParams)
    (aloc : ℕ → ℕ → ℚ) (zs : ℕ → ℕ → ℕ → ZDraw) (i : ℕ)
    (s : ℚ × ℚ × ℝ) (jp : ℕ × CanalParams) :
    passo bt params aloc zs i s jp =
      (s.1 + contribRoi bt params aloc zs i jp,
       s.2.1 + contribLucro bt params aloc zs i jp,
       s.2.2 + contribRisco bt params aloc zs i jp) := by
  unfold passo contribRoi contribLucro contribRisco
  by_cases h : 0 < bt * aloc i jp.1
  · simp only [if_pos h]
    cases hsim : simular_canal jp.2.canal (bt * aloc i jp.1) params 1000 (zs i jp.1) with
    | none => simp
    | some sim => simp
  · simp [if_neg h]

/-- The channel fold is the triple of sums of per-channel contributions. -/
lemma foldl_passo_eq_sums (bt : ℚ) (params : List CanalParams)
    (aloc : ℕ → ℕ → ℚ) (zs : ℕ → ℕ → ℕ → ZDraw) (i : ℕ)
    (l : List (ℕ × CanalParams)) :
    ∀ s : ℚ × ℚ × ℝ,
      l.foldl (passo bt params aloc zs i) s =
        (s.1 + (l.map (contribRoi bt params aloc zs i)).sum,
         s.2.1 + (l.map (contribLucro bt params aloc zs i)).sum,
         s.2.2 + (l.map (contribRisco bt params aloc zs i)).sum) := by
  induction l with
  | nil => intro s; simp
  | cons jp l ih =>
      intro s
      rw [List.foldl_cons, ih, passo_eq_contribs]
      simp [add_assoc]

/-- C3: for every candidate of a portfolio run, `roi_esperado`,
`lucro_esperado` and `risco` are exactly the sums over the enumerated
channel table of the per-channel contributions `mean_roi * weight`,
`mean_profit` (unweighted), and `profit_stddev * weight` - and a channel
whose allocated budget `budget_total * weight` is not strictly positive is
skipped, contributing zero to each of the three (source lines 175-186). -/
theorem portfolio_accumulation (bt : ℚ) (params : List CanalParams) (ns : ℕ)
    (aloc : ℕ → ℕ → ℚ) (zs : ℕ → ℕ → ℕ → ZDraw) (c : Portfolio)
    (hc : c ∈ (otimizar_portfolio bt params ns aloc zs).df_portfolios) :
    c.roi_esperado = (params.enum.map (contribRoi bt params aloc zs c.portfolio)).sum ∧
    c.lucro_esperado = (params.enum.map (contribLucro bt params aloc zs c.portfolio)).sum ∧
    c.risco = (params.enum.map (contribRisco bt params aloc zs c.portfolio)).sum ∧
    ∀ jp ∈ params.enum, ¬ 0 < bt * aloc c.portfolio jp.1 →
      contribRoi bt params aloc zs c.portfolio jp = 0 ∧
      contribLucro bt params aloc zs c.portfolio jp = 0 ∧
      contribRisco bt params aloc zs c.portfolio jp = 0 := by
  obtain ⟨i, hi, rfl⟩ := mem_df_portfolios hc
  refine ⟨?_, ?_, ?_, ?_⟩
  · rw [avaliar_portfolio_portfolio, avaliar_portfolio_roi, foldl_passo_eq_sums]
    simp
  · rw [avaliar_portfolio_portfolio, avaliar_portfolio_lucro, foldl_passo_eq_sums]
    simp
  · rw [avaliar_portfolio_portfolio, avaliar_portfolio_risco, foldl_passo_eq_sums]
    simp
  · rw [avaliar_portfolio_portfolio]
    intro jp _ h
    exact ⟨by simp [contribRoi, if_neg h], by simp [contribLucro, if_neg h],
      by simp [contribRisco, if_neg h]⟩

/-- Witness for C3: in a run in which every channel weight is 0, the
accumulation theorem forces all three accumulators of the first candidate
to 0 (every channel is skipped). -/
theorem portfolio_accumulation_witness :
    ∃ c, c ∈ (otimizar_portfolio 50000 criar_parametros_canais 5000
        (fun _ _ => 0) (fun _ _ _ => ⟨0, 0, 0, 0⟩)).df_portfolios ∧
      c.roi_esperado = 0 ∧ c.lucro_esperado = 0 ∧ c.risco = 0 := by
  have hlen : (otimizar_portfolio 50000 criar_parametros_canais 5000
      (fun _ _ => 0) (fun _ _ _ => ⟨0, 0, 0, 0⟩)).df_portfolios.length = 1000 := by
    simp
  have hmem : (otimizar_portfolio 50000 criar_parametros_canais 5000
      (fun _ _ => 0) (fun _ _ _ => ⟨0, 0, 0, 0⟩)).df_portfolios.get ⟨0, by omega⟩ ∈
      (otimizar_portfolio 50000 criar_parametros_canais 5000
        (fun _ _ => 0) (fun _ _ _ => ⟨0, 0, 0, 0⟩)).df_portfolios :=
    List.get_mem _ _ _
  obtain ⟨h1, h2, h3, -⟩ := portfolio_accumulation 50000 criar_parametros_canais 5000
    (fun _ _ => 0) (fun _ _ _ => ⟨0, 0, 0, 0⟩) _ hmem
  refine ⟨_, hmem, ?_, ?_, ?_⟩
  · rw [h1]
    exact List.sum_eq_zero (by
      intro x hx
      rcases List.mem_map.mp hx with ⟨jp, -, rfl⟩
      simp [contribRoi])
  · rw [h2]
    exact List.sum_eq_zero (by
      intro x hx
      rcases List.mem_map.mp hx with ⟨jp, -, rfl⟩
      simp [contribLucro])
  · rw [h3]
    exact List.sum_eq_zero (by
      intro x hx
      rcases List.mem_map.mp hx with ⟨jp, -, rfl⟩
      simp [contribRisco])

/-- C6: every candidate's `sharpe_ratio` is 0 when its `risco` is 0 (the
guarded branch of source line 193, no division by zero), and equals
`lucro_esperado / risco` when `risco > 0`. -/
theorem sharpe_degeneracy (bt : ℚ) (params : List CanalParams) (ns : ℕ)
    (aloc : ℕ → ℕ → ℚ) (zs : ℕ → ℕ → ℕ → ZDraw) (c : Portfolio)
    (hc : c ∈ (otimizar_portfolio bt params ns aloc zs).df_portfolios) :
    (c.risco = 0 → c.sharpe_ratio = 0) ∧
    (0 < c.risco → c.sharpe_ratio = ((c.lucro_esperado : ℚ) : ℝ) / c.risco) := by
  obtain ⟨i, hi, rfl⟩ := mem_df_portfolios hc
  rw [avaliar_portfolio_risco, avaliar_portfolio_sharpe, avaliar_portfolio_lucro]
  constructor
  · intro h0
    rw [h0, if_neg (lt_irrefl (0 : ℝ))]
  · intro hpos
    rw [if_pos hpos]

/-- Witness for C6: with all channel weights 0 no channel is simulated, so
the first candidate's risk is 0 and the theorem yields `sharpe_ratio = 0`. -/
theorem sharpe_degeneracy_witness :
    ∃ c, c ∈ (otimizar_portfolio 50000 criar_parametros_canais 5000
        (fun _ _ => 0) (fun _ _ _ => ⟨0, 0, 0, 0⟩)).df_portfolios ∧
      c.risco = 0 ∧ c.sharpe_ratio = 0 := by
  have hlen : (otimizar_portfolio 50000 criar_parametros_canais 5000
      (fun _ _ => 0) (fun _ _ _ => ⟨0, 0, 0, 0⟩)).df_portfolios.length = 1000 := by
    simp
  have hmem : (otimizar_portfolio 50000 criar_parametros_canais 5000
      (fun _ _ => 0) (fun _ _ _ => ⟨0, 0, 0, 0⟩)).df_portfolios.get ⟨0, by omega⟩ ∈
      (otimizar_portfolio 50000 criar_parametros_canais 5000
        (fun _ _ => 0) (fun _ _ _ => ⟨0, 0, 0, 0⟩)).df_portfolios :=
    List.get_mem _ _ _
  have hrisco : ((otimizar_portfolio 50000 criar_parametros_canais 5000
      (fun _ _ => 0) (fun _ _ _ => ⟨0, 0, 0, 0⟩)).df_portfolios.get
        ⟨0, by omega⟩).risco = 0 := by
    rcases mem_df_portfolios hmem with ⟨i, -, heq⟩
    rw [heq, avaliar_portfolio_risco, foldl_passo_eq_sums]
    simp only [zero_add]
    exact List.sum_eq_zero (by
      intro x hx
      rcases List.mem_map.mp hx with ⟨jp, -, rfl⟩
      simp [contribRisco])
  obtain ⟨h0, -⟩ := sharpe_degeneracy 50000 criar_parametros_canais 5000
    (fun _ _ => 0) (fun _ _ _ => ⟨0, 0, 0, 0⟩) _ hmem
  exact ⟨_, hmem, hrisco, h0 hrisco⟩

/-! ## The `idxmax` selection (first occurrence of the maximum) -/

/-- Full characterization of the `idxmaxAux` scan: either no element of
`xs` beats the incoming best value `bv` (the incoming best index `bi` is
kept), or the result is the absolute position `i + k` of the first element
that strictly beats `bv` and is a maximum of `xs`. -/
lemma idxmaxAux_spec {α β : Type} [LinearOrder β] (f : α → β) :
    ∀ (xs : List α) (i : ℕ) (bv : β) (bi : ℕ),
      (idxmaxAux f xs i bv bi = bi ∧ ∀ k (hk : k < xs.length), f (xs.get ⟨k, hk⟩) ≤ bv) ∨
      (∃ k, ∃ hk : k < xs.length,
        idxmaxAux f xs i bv bi = i + k ∧
        bv < f (xs.get ⟨k, hk⟩) ∧
        (∀ m (hm : m < xs.length), f (xs.get ⟨m, hm⟩) ≤ f (xs.get ⟨k, hk⟩)) ∧
        (∀ m (hm : m < k), f (xs.get ⟨m, Nat.lt_trans hm hk⟩) < f (xs.get ⟨k, hk⟩))) := by
  intro xs
  induction xs with
  | nil =>
      intro i bv bi
      exact Or.inl ⟨rfl, fun k hk => absurd hk (Nat.not_lt_zero k)⟩
  | cons x xs ih =>
      intro i bv bi
      by_cases h : bv < f x
      · rcases ih (i + 1) (f x) i with ⟨heq, hall⟩ | ⟨k, hk, heq, hgt, hmax, hfirst⟩
        · refine Or.inr ⟨0, Nat.succ_pos _, ?_, h, ?_,
            fun m hm => absurd hm (Nat.not_lt_zero m)⟩
          · simp only [idxmaxAux, if_pos h, heq]; omega
          · intro m hm
            rcases m with _ | m
            · exact le_refl _
            · exact hall m (Nat.lt_of_succ_lt_succ hm)
        · refine Or.inr ⟨k + 1, Nat.succ_lt_succ hk, ?_, lt_trans h hgt, ?_, ?_⟩
          · simp only [idxmaxAux, if_pos h, heq]; omega
          · intro m hm
            rcases m with _ | m
            · exact le_of_lt hgt
            · exact hmax m (Nat.lt_of_succ_lt_succ hm)
          · intro m hm
            rcases m with _ | m
            · exact hgt
            · exact hfirst m (Nat.lt_of_succ_lt_succ hm)
      · rcases ih (i + 1) bv bi with ⟨heq, hall⟩ | ⟨k, hk, heq, hgt, hmax, hfirst⟩
        · refine Or.inl ⟨?_, ?_⟩
          · simp only [idxmaxAux, if_neg h, heq]
          · intro m hm
            rcases m with _ | m
            · exact le_of_not_lt h
            · exact hall m (Nat.lt_of_succ_lt_succ hm)
        · refine Or.inr ⟨k + 1, Nat.succ_lt_succ hk, ?_, hgt, ?_, ?_⟩
          · simp only [idxmaxAux, if_neg h, heq]; omega
          · intro m hm
            rcases m with _ | m
            · exact le_trans (le_of_not_lt h) (le_of_lt hgt)
            · exact hmax m (Nat.lt_of_succ_lt_succ hm)
          · intro m hm
            rcases m with _ | m
            · exact lt_of_le_of_lt (le_of_not_lt h) hgt
            · exact hfirst m (Nat.lt_of_succ_lt_succ hm)

/-- `idxmax` on a nonempty list selects (via `getD`) a member whose value
bounds every element, and no strictly earlier position reaches that value:
pandas' first-occurrence-of-the-maximum rule. -/
lemma idxmax_selection {α β : Type} [LinearOrder β] (f : α → β) (l : List α)
    (dflt : α) (hne : l ≠ []) :
    l.getD (idxmax f l) dflt ∈ l ∧
    (∀ c ∈ l, f c ≤ f (l.getD (idxmax f l) dflt)) ∧
    (∀ k (hk : k < l.length),
      f (l.get ⟨k, hk⟩) = f (l.getD (idxmax f l) dflt) → idxmax f l ≤ k) := by
  cases l with
  | nil => exact absurd rfl hne
  | cons x xs =>
      rcases idxmaxAux_spec f xs 1 (f x) 0 with ⟨heq, hall⟩ | ⟨k, hk, heq, hgt, hmax, hfirst⟩
      · have hidx : idxmax f (x :: xs) = 0 := by simp only [idxmax, heq]
        rw [hidx]
        refine ⟨List.mem_cons_self x xs, ?_, fun k _ _ => Nat.zero_le k⟩
        intro c hc
        rcases List.mem_cons.mp hc with rfl | hc
        · exact le_refl _
        · obtain ⟨⟨m, hm⟩, rfl⟩ := List.mem_iff_get.mp hc
          exact hall m hm
      · have hidx : idxmax f (x :: xs) = k + 1 := by
          simp only [idxmax, heq]; omega
        rw [hidx]
        have hk1 : k + 1 < (x :: xs).length := Nat.succ_lt_succ hk
        have hgetD : (x :: xs).getD (k + 1) dflt = xs.get ⟨k, hk⟩ := by
          rw [List.getD_eq_get _ _ hk1]; rfl
        rw [hgetD]
        refine ⟨?_, ?_, ?_⟩
        · exact List.mem_cons_of_mem x (List.get_mem xs k hk)
        · intro c hc
          rcases List.mem_cons.mp hc with rfl | hc
          · exact le_of_lt hgt
          · obtain ⟨⟨m, hm⟩, rfl⟩ := List.mem_iff_get.mp hc
            exact hmax m hm
        · intro j hj heqv
          by_contra hcon
          have hjk : j < k + 1 := Nat.lt_of_not_le hcon
          rcases j with _ | m
          · exact absurd heqv (ne_of_lt hgt)
          · exact absurd heqv (ne_of_lt (hfirst m (Nat.lt_of_succ_lt_succ hjk)))

/-- C8: `melhor_roi` is a candidate of the run whose `roi_esperado` bounds
every candidate's, `melhor_sharpe` likewise for `sharpe_ratio`, and in
both selections no candidate generated strictly earlier than the selected
`idxmax` position attains the maximal value (pandas `idxmax` ties resolve
to the first occurrence; source lines 200-201). -/
theorem best_portfolio_selection (bt : ℚ) (params : List CanalParams)
    (ns : ℕ) (aloc : ℕ → ℕ → ℚ) (zs : ℕ → ℕ → ℕ → ZDraw) :
    ((otimizar_portfolio bt params ns aloc zs).melhor_roi ∈
        (otimizar_portfolio bt params ns aloc zs).df_portfolios ∧
      (∀ c ∈ (otimizar_portfolio bt params ns aloc zs).df_portfolios,
        c.roi_esperado ≤ (otimizar_portfolio bt params ns aloc zs).melhor_roi.roi_esperado) ∧
      (∀ k (hk : k < (otimizar_portfolio bt params ns aloc zs).df_portfolios.length),
        ((otimizar_portfolio bt params ns aloc zs).df_portfolios.get ⟨k, hk⟩).roi_esperado =
          (otimizar_portfolio bt params ns aloc zs).melhor_roi.roi_esperado →
        idxmax (fun c => c.roi_esperado)
          (otimizar_portfolio bt params ns aloc zs).df_portfolios ≤ k)) ∧
    ((otimizar_portfolio bt params ns aloc zs).melhor_sharpe ∈
        (otimizar_portfolio bt params ns aloc zs).df_portfolios ∧
      (∀ c ∈ (otimizar_portfolio bt params ns aloc zs).df_portfolios,
        c.sharpe_ratio ≤ (otimizar_portfolio bt params ns aloc zs).melhor_sharpe.sharpe_ratio) ∧
      (∀ k (hk : k < (otimizar_portfolio bt params ns aloc zs).df_portfolios.length),
        ((otimizar_portfolio bt params ns aloc zs).df_portfolios.get ⟨k, hk⟩).sharpe_ratio =
          (otimizar_portfolio bt params ns aloc zs).melhor_sharpe.sharpe_ratio →
        idxmax (fun c => c.sharpe_ratio)
          (otimizar_portfolio bt params ns aloc zs).df_portfolios ≤ k)) := by
  have hne : (otimizar_portfolio bt params ns aloc zs).df_portfolios ≠ [] :=
    List.length_pos.mp (by simp)
  constructor
  · rw [otimizar_portfolio_melhor_roi]
    exact idxmax_selection (fun c => c.roi_esperado)
      (otimizar_portfolio bt params ns aloc zs).df_portfolios dfltPortfolio hne
  · rw [otimizar_portfolio_melhor_sharpe]
    exact idxmax_selection (fun c => c.sharpe_ratio)
      (otimizar_portfolio bt params ns aloc zs).df_portfolios dfltPortfolio hne

/-- Witness for C8 at a concrete run: both selected portfolios are members
of the returned candidate set. -/
theorem best_portfolio_selection_witness :
    (otimizar_portfolio 50000 criar_parametros_canais 5000
        (fun _ _ => 0) (fun _ _ _ => ⟨0, 0, 0, 0⟩)).melhor_roi ∈
      (otimizar_portfolio 50000 criar_parametros_canais 5000
        (fun _ _ => 0) (fun _ _ _ => ⟨0, 0, 0, 0⟩)).df_portfolios ∧
    (otimizar_portfolio 50000 criar_parametros_canais 5000
        (fun _ _ => 0) (fun _ _ _ => ⟨0, 0, 0, 0⟩)).melhor_sharpe ∈
      (otimizar_portfolio 50000 criar_parametros_canais 5000
        (fun _ _ => 0) (fun _ _ _ => ⟨0, 0, 0, 0⟩)).df_portfolios :=
  ⟨(best_portfolio_selection 50000 criar_parametros_canais 5000
      (fun _ _ => 0) (fun _ _ _ => ⟨0, 0, 0, 0⟩)).1.1,
   (best_portfolio_selection 50000 criar_parametros_canais 5000
      (fun _ _ => 0) (fun _ _ _ => ⟨0, 0, 0, 0⟩)).2.1⟩

/-! ## Draw-count accounting for the optimizer -/

/-- A list mapped to a constant sums to its length times the constant. -/
lemma sum_map_eq_length_mul {α : Type} (l : List α) (g : α → ℕ) (c : ℕ)
    (h : ∀ x ∈ l, g x = c) : (l.map g).sum = l.length * c := by
  induction l with
  | nil => simp
  | cons x xs ih =>
      simp only [List.map_cons, List.sum_cons, List.length_cons]
      rw [h x (List.mem_cons_self x xs), ih (fun y hy => h y (List.mem_cons_of_mem x hy))]
      ring

/-- The name of a table row always re-finds some row (possibly an earlier
duplicate), so the optimizer's inner lookup never fails. -/
lemma find?_canal_of_mem (params : List CanalParams) (p : CanalParams)
    (hp : p ∈ params) :
    ∃ q, params.find? (fun r => r.canal == p.canal) = some q := by
  induction params with
  | nil => exact absurd hp (List.not_mem_nil p)
  | cons r rs ih =>
      by_cases hr : r.canal == p.canal
      · exact ⟨r, @List.find?_cons_of_pos _ (fun s => s.canal == p.canal) r rs hr⟩
      · rcases List.mem_cons.mp hp with rfl | hp'
        · exact absurd (by simp) hr
        · obtain ⟨q, hq⟩ := ih hp'
          exact ⟨q, by
            rw [@List.find?_cons_of_neg _ (fun s => s.canal == p.canal) r rs hr, hq]⟩

/-- Position and membership of an `enum` entry. -/
lemma mem_enum_bounds {α : Type} {l : List α} {jp : ℕ × α} (h : jp ∈ l.enum) :
    jp.1 < l.length ∧ jp.2 ∈ l := by
  have hget : l.get? jp.1 = some jp.2 := List.mem_enum_iff_get?.mp h
  obtain ⟨hlt, hg⟩ := List.get?_eq_some.mp hget
  exact ⟨hlt, hg ▸ List.get_mem l jp.1 hlt⟩

/-- When every channel of every trial receives positive budget, the
optimizer simulates exactly `1000 * channel_count * 1000` draws: 1000
trials (hardcoded, line 164) times the channel count times 1000 draws per
inner simulation (hardcoded, line 178). -/
lemma total_draws_all_positive (bt : ℚ) (params : List CanalParams)
    (aloc : ℕ → ℕ → ℚ) (zs : ℕ → ℕ → ℕ → ZDraw)
    (hpos : ∀ i j, j < params.length → 0 < bt * aloc i j) :
    total_draws_simulated bt params aloc zs = 1000 * params.length * 1000 := by
  unfold total_draws_simulated
  rw [sum_map_eq_length_mul (List.range 1000) _ (params.length * 1000) ?_]
  · rw [List.length_range]; ring
  intro i _
  rw [sum_map_eq_length_mul params.enum _ 1000 ?_]
  · rw [List.enum_length]
  intro jp hjp
  obtain ⟨hj, hmem⟩ := mem_enum_bounds hjp
  rw [if_pos (hpos i jp.1 hj)]
  obtain ⟨q, hq⟩ := find?_canal_of_mem params jp.2 hmem
  rw [simular_canal, hq]
  simp

/-- C5 amended: the optimizer always produces exactly 1000 candidates,
and when every channel of every trial receives positive allocated budget
it simulates exactly `1000 * channel_count * 1000` draws; both the 1000
trials and the 1000 draws per channel are hardcoded constants, not
parameters (the `n_simulacoes` parameter of the function is unused). -/
theorem fixed_trial_and_draw_counts (bt : ℚ) (params : List CanalParams)
    (ns : ℕ) (aloc : ℕ → ℕ → ℚ) (zs : ℕ → ℕ → ℕ → ZDraw)
    (hpos : ∀ i j, j < params.length → 0 < bt * aloc i j) :
    (otimizar_portfolio bt params ns aloc zs).df_portfolios.length = 1000 ∧
    total_draws_simulated bt params aloc zs = 1000 * params.length * 1000 :=
  ⟨by simp, total_draws_all_positive bt params aloc zs hpos⟩

/-- Witness for the amended C5: equal fifths of a 50000 budget over the
five-channel table give 1000 candidates and `1000 * 5 * 1000` draws. -/
theorem fixed_trial_and_draw_counts_witness :
    (otimizar_portfolio 50000 criar_parametros_canais 5000
        (fun _ _ => 1 / 5) (fun _ _ _ => ⟨0, 0, 0, 0⟩)).df_portfolios.length = 1000 ∧
    total_draws_simulated 50000 criar_parametros_canais
        (fun _ _ => 1 / 5) (fun _ _ _ => ⟨0, 0, 0, 0⟩) =
      1000 * criar_parametros_canais.length * 1000 :=
  fixed_trial_and_draw_counts 50000 criar_parametros_canais 5000
    (fun _ _ => 1 / 5) (fun _ _ _ => ⟨0, 0, 0, 0⟩)
    (fun _ _ _ => by norm_num)

/-- C5 counterexample: neither the trial count nor the per-channel draw
count tracks the function's one numeric parameter.  Calling with
`n_simulacoes = 7` still yields 1000 candidates (not 7) and
`1000 * channel_count * 1000` simulated draws (not `7 * channel_count * 7`). -/
theorem optimizer_counts_not_parameters :
    (otimizar_portfolio 50000 criar_parametros_canais 7
        (fun _ _ => 1 / 5) (fun _ _ _ => ⟨0, 0, 0, 0⟩)).df_portfolios.length = 1000 ∧
    total_draws_simulated 50000 criar_parametros_canais
        (fun _ _ => 1 / 5) (fun _ _ _ => ⟨0, 0, 0, 0⟩) =
      1000 * criar_parametros_canais.length * 1000 ∧
    (1000 : ℕ) ≠ 7 ∧
    1000 * criar_parametros_canais.length * 1000 ≠
      7 * criar_parametros_canais.length * 7 := by
  refine ⟨by simp, total_draws_all_positive _ _ _ _ (fun _ _ _ => by norm_num),
    by norm_num, ?_⟩
  norm_num [criar_parametros_canais]

end Montecarlo
